import Mathlib

/-! Verification development for the external-risk detection pipeline of the
`out_risk_api` application (apps/out_risk_api/app).  The Python source is
shallowly embedded: text is `List Char` (Python indexes strings by code
point), machine floats are modelled as exact rationals `ℚ`, fallible
network calls are passed in as `Option`-valued oracles, and the stateful
LangGraph pipeline becomes explicit state-passing functions, translated
node by node from `app/pipeline/detect.py`.
-/

/-- Python strings indexed by code point. -/
abbrev Str := List Char

/-- The whitespace characters recognised by Python's `\s` for the ASCII
range used throughout the sources. -/
def isWsChar (c : Char) : Bool :=
  c == ' ' || c == '\t' || c == '\n' || c == '\r' || c == '\x0b' || c == '\x0c'

/-- Embedding of Python `str.strip()` (leading and trailing whitespace
removed). -/
def pyStrip (s : Str) : Str :=
  ((s.dropWhile isWsChar).reverse.dropWhile isWsChar).reverse

/-- Embedding of Python `str.lower()` (ASCII case folding; the Korean
keyword lists are caseless). -/
def pyLower (s : Str) : Str := s.map Char.toLower

/-- Embedding of `re.sub(r"\s+", " ", t)`: every maximal whitespace run
becomes a single space. -/
def collapseWs : Str → Str
  | [] => []
  | c :: rest =>
    if isWsChar c then ' ' :: collapseWs (rest.dropWhile isWsChar)
    else c :: collapseWs rest
termination_by s => s.length
decreasing_by
  · have h := (List.dropWhile_sublist isWsChar (l := rest)).length_le
    simp only [List.length_cons]
    omega
  · simp only [List.length_cons]
    omega

/-- Source `app/analyze/classifier.py`, `esg_normalize_text`: lower-case, collapse
whitespace, strip. -/
def esg_normalize_text (text : Str) : Str :=
  pyStrip (collapseWs (pyLower text))

/-- Tests whether `needle` is a leading segment of `hay` (helper for Python `str.find` /
substring membership). -/
def listStarts : Str → Str → Bool
  | [], _ => true
  | _ :: _, [] => false
  | a :: as, b :: bs => a == b && listStarts as bs

/-- Embedding of Python `hay.find(needle)`: index of the first occurrence,
`none` when absent (Python returns `-1`). -/
def strFind (needle : Str) : Str → Option Nat
  | [] => if listStarts needle [] then some 0 else none
  | c :: rest =>
    if listStarts needle (c :: rest) then some 0
    else (strFind needle rest).map (· + 1)

/-- Embedding of Python `needle in hay`. -/
def strContainsB (hay needle : Str) : Bool := (strFind needle hay).isSome

/-- The five fixed risk categories (`app/schemas/risk.py`, `Category`). -/
inductive Category where
  | SAFETY_ACCIDENT
  | LEGAL_SANCTION
  | LABOR_DISPUTE
  | ENV_COMPLAINT
  | FINANCE_LITIGATION
deriving DecidableEq, Repr

/-- Keyword table `_KEYWORDS` of `app/analyze/classifier.py`, in source
order. -/
def categoryKeywords : Category → List Str
  | .SAFETY_ACCIDENT =>
      ["사고", "산재", "추락", "끼임", "사망", "부상", "안전", "중대재해"].map String.toList
  | .LEGAL_SANCTION =>
      ["과징금", "행정처분", "위반", "처분", "검찰", "기소", "벌금", "제재"].map String.toList
  | .LABOR_DISPUTE =>
      ["파업", "노조", "쟁의", "임금체불", "부당해고", "노사", "교섭"].map String.toList
  | .ENV_COMPLAINT =>
      ["오염", "배출", "악취", "민원", "누출", "환경", "폐수", "먼지"].map String.toList
  | .FINANCE_LITIGATION =>
      ["부도", "회생", "파산", "소송", "채무", "연체", "적자", "유동성"].map String.toList

/-- Embedding of `list(_KEYWORDS.keys())`: the categories in dict insertion order. -/
def allCategories : List Category :=
  [.SAFETY_ACCIDENT, .LEGAL_SANCTION, .LABOR_DISPUTE, .ENV_COMPLAINT, .FINANCE_LITIGATION]

/-- Source `app/analyze/classifier.py`, `esg_ClassifyResult`. -/
structure esg_ClassifyResult where
  category : Category
  severity : Nat
  tags : List Str
deriving DecidableEq, Repr

/-- Embedding of `hit = sum(1 for k in kws if k in t)` on an already-normalized text. -/
def countHitsOn (t : Str) (cat : Category) : Nat :=
  ((categoryKeywords cat).filter (fun k => strContainsB t k)).length

/-- Embedding of `[k for k in kws if k in t][:5]` on an already-normalized text. -/
def tagsOn (t : Str) (cat : Category) : List Str :=
  ((categoryKeywords cat).filter (fun k => strContainsB t k)).take 5

/-- Hit count of a category against the normalized form of `text`. -/
def hitCount (text : Str) (cat : Category) : Nat :=
  countHitsOn (esg_normalize_text text) cat

/-- Loop body of `esg_guess_category`: replace the running best exactly
when the new hit count is strictly greater (`if hit > best_hit`). -/
def esg_guess_step (t : Str) (acc : Category × Nat × List Str) (cat : Category) :
    Category × Nat × List Str :=
  if acc.2.1 < countHitsOn t cat then (cat, countHitsOn t cat, tagsOn t cat) else acc

/-- Source `app/analyze/classifier.py`, `esg_guess_category`.  An empty `allowed`
list is replaced by the full keyword table (`allowed or list(_KEYWORDS.keys())`);
the accumulator starts at `(allowed[0], 0, [])`.  `headD` is only a
Lean-side totalizer: the effective list is never empty, so the default is
never consulted. -/
def esg_guess_category (text : Str) (allowed : List Category) : esg_ClassifyResult :=
  let allowedEff := if allowed.isEmpty then allCategories else allowed
  let t := esg_normalize_text text
  let r := allowedEff.foldl (esg_guess_step t) (allowedEff.headD Category.SAFETY_ACCIDENT, 0, [])
  ⟨r.1, min 5 r.2.1, r.2.2⟩

/-- First index (in lowered `text`) of the first tag, scanned in list
order, that occurs case-insensitively — the loop of
`esg_pick_quote_and_offset`. -/
def lowerFindFirstTag (text : Str) : List Str → Option Nat
  | [] => none
  | tag :: rest =>
    match strFind (pyLower tag) (pyLower text) with
    | some idx => some idx
    | none => lowerFindFirstTag text rest

/-- Source `app/analyze/classifier.py`, `esg_pick_quote_and_offset`.  Natural-number
subtraction realises Python's `max(0, idx - 60)` clamp. -/
def esg_pick_quote_and_offset (full_text : Str) (tags : List Str) (max_len : Nat) :
    Str × Nat × Nat :=
  if full_text.isEmpty then ([], 0, 0)
  else
    match lowerFindFirstTag full_text tags with
    | some idx =>
      let start := idx - 60
      let e := min full_text.length (start + max_len)
      ((full_text.drop start).take (e - start), start, e)
    | none =>
      let e2 := min full_text.length max_len
      (full_text.take e2, 0, e2)

/-- Days since 1970-01-01 of a proleptic-Gregorian civil date (the
arithmetic behind Python `datetime`), via the standard era decomposition
with floor division. -/
def daysFromCivil (y m d : Int) : Int :=
  let y1 := if m ≤ 2 then y - 1 else y
  let era := Int.fdiv y1 400
  let yoe := y1 - era * 400
  let mp := if 2 < m then m - 3 else m + 9
  let doy := Int.fdiv (153 * mp + 2) 5 + d - 1
  let doe := yoe * 365 + Int.fdiv yoe 4 - Int.fdiv yoe 100 + doy
  era * 146097 + doe - 719468

/-- Gregorian leap-year rule. -/
def isLeap (y : Int) : Bool :=
  (y % 4 == 0 && y % 100 != 0) || (y % 400 == 0)

/-- Number of days of month `m` in year `y`. -/
def daysInMonth (y m : Int) : Int :=
  if m = 2 then (if isLeap y then 29 else 28)
  else if m = 4 ∨ m = 6 ∨ m = 9 ∨ m = 11 then 30
  else 31

/-- Value of one ASCII digit. -/
def digVal (c : Char) : Option Nat :=
  if c.isDigit then some (c.toNat - 48) else none

/-- Consumes exactly `n` leading ASCII digits, returning their value and
the rest (accumulator form). -/
def takeDigitsAux (acc : Nat) : Nat → Str → Option (Nat × Str)
  | 0, s => some (acc, s)
  | _ + 1, [] => none
  | n + 1, c :: r =>
    match digVal c with
    | some v => takeDigitsAux (acc * 10 + v) n r
    | none => none

/-- Consumes exactly `n` leading ASCII digits. -/
def takeDigitsExact (n : Nat) (s : Str) : Option (Nat × Str) :=
  takeDigitsAux 0 n s

/-- Alternatives of a CPython `strptime` numeric field in regex order: the
two-digit reading first, then the one-digit reading, each filtered by the
range its regex alternation admits (e.g. `%m` is `1[0-2]|0[1-9]|[1-9]`).
The regex engine backtracks through these in order, so the list order is
the engine's preference order. -/
def alts2then1 (ok2 ok1 : Nat → Bool) (s : Str) : List (Nat × Str) :=
  (match s with
   | a :: b :: r =>
     match digVal a, digVal b with
     | some x, some y => if ok2 (x * 10 + y) then [(x * 10 + y, r)] else []
     | _, _ => []
   | _ => []) ++
  (match s with
   | a :: r =>
     match digVal a with
     | some x => if ok1 x then [(x, r)] else []
     | none => []
   | [] => [])

/-- CPython `%m` field: `1[0-2]|0[1-9]|[1-9]`. -/
def altsMonth : Str → List (Nat × Str) :=
  alts2then1 (fun v => decide (1 ≤ v ∧ v ≤ 12)) (fun v => decide (1 ≤ v))

/-- CPython `%d` field: `3[01]|[12][0-9]|0[1-9]|[1-9]`. -/
def altsDay : Str → List (Nat × Str) :=
  alts2then1 (fun v => decide (1 ≤ v ∧ v ≤ 31)) (fun v => decide (1 ≤ v))

/-- CPython `%H` field: `2[0-3]|[0-1][0-9]|[0-9]`. -/
def altsHour : Str → List (Nat × Str) :=
  alts2then1 (fun v => decide (v ≤ 23)) (fun _ => true)

/-- CPython `%M` and `%S` fields: `[0-5][0-9]|[0-9]`. -/
def altsMinSec : Str → List (Nat × Str) :=
  alts2then1 (fun v => decide (v ≤ 59)) (fun _ => true)

/-- UTC epoch microseconds of a validated civil date-time (the ranges the
`datetime` constructor itself enforces; microsecond precision makes the
fractional-second forms of `fromisoformat` exact). -/
def mkUtcMicros (y mo dy h mi s micro : Nat) : Option Int :=
  if 1 ≤ y ∧ y ≤ 9999 ∧ 1 ≤ mo ∧ mo ≤ 12 ∧ 1 ≤ dy ∧ (dy : Int) ≤ daysInMonth y mo ∧
      h ≤ 23 ∧ mi ≤ 59 ∧ s ≤ 59 ∧ micro ≤ 999999 then
    some ((daysFromCivil y mo dy * 86400 + h * 3600 + mi * 60 + s) * 1000000 + micro)
  else none

/-- Structural match of `strptime(value, "%Y-%m-%d")`: a fixed 4-digit
year (CPython `%Y` is `\d\d\d\d`), then 1-2 digit month and day with
ordered-backtracking field alternatives; the whole string must be
consumed.  Range validation (e.g. Feb 30) happens once afterwards, as in
`datetime`, without re-matching. -/
def strptimeYmd (s : Str) : Option (Nat × Nat × Nat) :=
  (takeDigitsExact 4 s).bind fun (y, r0) =>
    match r0 with
    | '-' :: r1 =>
      (altsMonth r1).findSome? fun (m, r2) =>
        match r2 with
        | '-' :: r3 =>
          (altsDay r3).findSome? fun (d, r4) =>
            if r4 = [] then some (y, m, d) else none
        | _ => none
    | _ => none

/-- Embedding of `strptime(value, "%Y-%m-%d")` as epoch microseconds: a
plain date, read as UTC midnight (the caller attaches `timezone.utc` to
the naive result). -/
def parseYmd (s : Str) : Option Int :=
  (strptimeYmd s).bind fun (y, m, d) => mkUtcMicros y m d 0 0 0 0

/-- Structural match of `strptime(value, "%Y%m%dT%H%M%SZ")` with the
regex engine's ordered backtracking over the 1-2 digit field
alternatives (so `"20261023T123Z"` reads as 2026-10-23 01:02:03, as
CPython does). -/
def strptimeCompact (s : Str) : Option (Nat × Nat × Nat × Nat × Nat × Nat) :=
  (takeDigitsExact 4 s).bind fun (y, r0) =>
    (altsMonth r0).findSome? fun (m, r1) =>
      (altsDay r1).findSome? fun (d, r2) =>
        match r2 with
        | 'T' :: r3 =>
          (altsHour r3).findSome? fun (h, r4) =>
            (altsMinSec r4).findSome? fun (mi, r5) =>
              (altsMinSec r5).findSome? fun (se, r6) =>
                if r6 = ['Z'] then some (y, m, d, h, mi, se) else none
        | _ => none

/-- Embedding of `strptime(value, "%Y%m%dT%H%M%SZ")` as epoch
microseconds: the compact timestamp with a trailing zone marker, read as
UTC. -/
def parseCompact (s : Str) : Option Int :=
  (strptimeCompact s).bind fun (y, m, d, h, mi, se) => mkUtcMicros y m d h mi se 0

/-- Date part of `fromisoformat`: `YYYY-MM-DD` (zero-padded) or the basic
form `YYYYMMDD`, returning the rest of the string.  ISO week-numbering
dates (`2026-W40-4`), which CPython 3.11 also accepts, are not produced
by any component of this system and are omitted. -/
def isoDate (s : Str) : Option (Nat × Nat × Nat × Str) :=
  (takeDigitsExact 4 s).bind fun (y, r0) =>
    match r0 with
    | '-' :: r1 =>
      (takeDigitsExact 2 r1).bind fun (m, r2) =>
        match r2 with
        | '-' :: r3 => (takeDigitsExact 2 r3).map fun (d, r4) => (y, m, d, r4)
        | _ => none
    | _ =>
      (takeDigitsExact 2 r0).bind fun (m, r2) =>
        (takeDigitsExact 2 r2).map fun (d, r4) => (y, m, d, r4)

/-- Structural time-of-day of `fromisoformat`: `HH[:MM[:SS]]` or the
basic `HH[MM[SS]]`, two digits per component, no range checks here (the
same shape is reused for offsets, whose ranges differ). -/
def isoTimeCore (s : Str) : Option (Nat × Nat × Nat × Str) :=
  (takeDigitsExact 2 s).bind fun (h, r0) =>
    match r0 with
    | ':' :: r1 =>
      (takeDigitsExact 2 r1).bind fun (mi, r2) =>
        match r2 with
        | ':' :: r3 =>
          (takeDigitsExact 2 r3).map fun (se, r4) => (h, mi, se, r4)
        | _ => some (h, mi, 0, r2)
    | _ =>
      match takeDigitsExact 2 r0 with
      | some (mi, r2) =>
        (match takeDigitsExact 2 r2 with
         | some (se, r4) => some (h, mi, se, r4)
         | none => some (h, mi, 0, r2))
      | none => some (h, 0, 0, r0)

/-- Fractional-second digits after `.` or `,`: one or more digits, the
first six kept as microseconds (CPython truncates longer fractions). -/
def fracDigits (r : Str) : Option (Nat × Str) :=
  let digs := r.takeWhile (fun c => (digVal c).isSome)
  if digs.isEmpty then none
  else
    let six := digs.take 6
    let v := six.foldl (fun acc c => acc * 10 + ((digVal c).getD 0)) 0
    some (v * 10 ^ (6 - six.length), r.drop digs.length)

/-- Offset magnitude of `fromisoformat` in microseconds: the structural
time shape with an optional fraction, fully consumed, strictly below 24
hours (CPython only enforces the strict 24-hour bound, so `+00:99` is
accepted). -/
def isoOffMag (r : Str) : Option Int :=
  (isoTimeCore r).bind fun (oh, om, os, r1) =>
    (match r1 with
     | [] => some (0 : Nat)
     | '.' :: rr => (fracDigits rr).bind fun (micro, r2) => if r2 = [] then some micro else none
     | ',' :: rr => (fracDigits rr).bind fun (micro, r2) => if r2 = [] then some micro else none
     | _ => none).bind fun omic =>
      let total : Int := (((oh * 3600 + om * 60 + os) * 1000000 + omic : Nat) : Int)
      if total < 86400000000 then some total else none

/-- Offset-or-end of `fromisoformat`: empty means naive (read as UTC by
the caller, so offset 0), otherwise a signed offset consuming the rest. -/
def isoOffsetEnd : Str → Option Int
  | [] => some 0
  | '+' :: r => isoOffMag r
  | '-' :: r => (isoOffMag r).map Neg.neg
  | _ => none

/-- Tail of the time string after the `HH[:MM[:SS]]` core: an optional
fractional second (after whichever component ended the core, as CPython
allows), or one optional whitespace character directly before the offset
sign (CPython tolerates it there but not after a fraction), then the
offset-or-end.  Returns `(microseconds, offset in microseconds)`. -/
def isoTail : Str → Option (Nat × Int)
  | [] => some (0, 0)
  | '.' :: r =>
    (fracDigits r).bind fun (micro, r2) => (isoOffsetEnd r2).map fun off => (micro, off)
  | ',' :: r =>
    (fracDigits r).bind fun (micro, r2) => (isoOffsetEnd r2).map fun off => (micro, off)
  | c :: r =>
    if isWsChar c then
      match r with
      | '+' :: rr => (isoOffMag rr).map fun off => (0, off)
      | '-' :: rr => (isoOffMag rr).map fun off => (0, -off)
      | _ => none
    else (isoOffsetEnd (c :: r)).map fun off => (0, off)

/-- Embedding of `datetime.fromisoformat` (CPython 3.11) as UTC epoch
microseconds: `YYYY-MM-DD` or `YYYYMMDD`, optionally followed by any
single separator character and a time `HH[:MM[:SS]]` (or basic
`HH[MM[SS]]`) with optional fractional seconds and optional
`±HH[:MM[:SS]]`/`±HH[MM[SS]]` offset.  Naive results are read as UTC,
matching the `tzinfo is None` fix-up in `esg_recency_weight`; a trailing
`Z` never reaches this parser (the caller rewrites `Z` to `+00:00`, and
`T...Z` strings take the compact branch).  ISO week dates are the one
accepted-by-CPython form omitted, as documented at `isoDate`. -/
def parseIso (s : Str) : Option Int :=
  (isoDate s).bind fun (y, m, d, rest) =>
    match rest with
    | [] => mkUtcMicros y m d 0 0 0 0
    | _sep :: tstr =>
      (isoTimeCore tstr).bind fun (h, mi, se, r1) =>
        (isoTail r1).bind fun (micro, off) =>
          (mkUtcMicros y m d h mi se micro).map fun base => base - off

/-- Embedding of `value.replace("Z", "+00:00")`. -/
def replaceZ (s : Str) : Str :=
  s.flatMap (fun c => if c == 'Z' then ['+', '0', '0', ':', '0', '0'] else [c])

/-- Source `app/scoring/rules.py`, `esg_parse_date_ymd`, returning UTC
epoch microseconds.  The branch structure follows the source: a value
containing `T` and ending in `Z` is only tried against the compact
format (and then the plain-date fallback); everything else goes through
`fromisoformat` with `Z` rewritten, falling back to the plain date. -/
def esg_parse_date_ymd (s : Str) : Option Int :=
  let value := pyStrip s
  if value.isEmpty then none
  else if value.contains 'T' && value.getLast? == some 'Z' then
    match parseCompact value with
    | some t => some t
    | none => parseYmd value
  else
    match parseIso (replaceZ value) with
    | some t => some t
    | none => parseYmd value

/-- Python `timedelta.days`: floor of the microsecond difference over one
day. -/
def ageDays (now dt : Int) : Int := Int.fdiv (now - dt) 86400000000

/-- Source `app/scoring/rules.py`, `esg_recency_weight`.  `now` is the
current UTC time in epoch microseconds; float weights are modelled as
exact rationals. -/
def esg_recency_weight (now : Int) (published_at : Str) : ℚ :=
  match esg_parse_date_ymd published_at with
  | none => 7/10
  | some dt =>
    let days := ageDays now dt
    if days ≤ 30 then 3/2
    else if days ≤ 90 then 1
    else if days ≤ 180 then 7/10
    else 2/5

/-- Source `app/schemas/risk.py` line 15: `RiskLevel` is a
`typing.Literal` alias over the three strings, modelled as the three
values the annotation denotes.  Being a `typing.Literal`, the alias has
no attributes — see `esg_level_from_total`. -/
inductive RiskLevel where
  | LOW
  | MEDIUM
  | HIGH
deriving DecidableEq, Repr

/-- Source `app/scoring/rules.py`, `esg_level_from_total`.  The threshold
structure is the source's, but every branch returns an attribute of the
`typing.Literal` alias (`RiskLevel.HIGH` / `.MEDIUM` / `.LOW`), and a
`typing.Literal` has no such attributes, so every call raises
`AttributeError` (verified on CPython 3.11: `AttributeError: HIGH`).
The embedding returns the raised error, recording which attribute each
threshold branch accesses. -/
def esg_level_from_total (total_score : ℚ) : Except Str RiskLevel :=
  if 10 ≤ total_score then .error "AttributeError: HIGH".toList
  else if 5 ≤ total_score then .error "AttributeError: MEDIUM".toList
  else .error "AttributeError: LOW".toList

/-- Source `app/schemas/risk.py`, `Company`. -/
structure Company where
  name : Str
  biz_no : Option Str
  vendor_id : Option Str
deriving DecidableEq, Repr

/-- Source `app/schemas/risk.py`, `SearchConfig`. -/
structure SearchConfig where
  enabled : Bool
  query : Str
  max_results : Int
  sources : List Str
  lang : Str
deriving DecidableEq, Repr

/-- Source `app/schemas/risk.py`, `DocItem`. -/
structure DocItem where
  doc_id : Str
  title : Str
  source : Str
  published_at : Str
  url : Str
  text : Str
  snippet : Str
deriving DecidableEq, Repr

/-- Source `app/schemas/risk.py`, `RagConfig` (`top_k` and `chunk_size` are
unconstrained pydantic `int`s). -/
structure RagConfig where
  enabled : Bool
  top_k : Int
  chunk_size : Int
deriving DecidableEq, Repr

/-- Source `app/schemas/risk.py`, `Options`. -/
structure Options where
  strict_grounding : Bool
  return_evidence_text : Bool
deriving DecidableEq, Repr

/-- Source `app/schemas/risk.py`, `ExternalRiskDetectRequest`. -/
structure ExternalRiskDetectRequest where
  company : Company
  time_window_days : Int
  categories : List Category
  search : SearchConfig
  documents : List DocItem
  rag : RagConfig
  options : Options
deriving DecidableEq, Repr

/-- Source `app/schemas/risk.py`, `Offset` (`end` is a Lean keyword, hence
`end_`). -/
structure Offset where
  start : Nat
  end_ : Nat
deriving DecidableEq, Repr

/-- Source `app/schemas/risk.py`, `EvidenceItem`. -/
structure EvidenceItem where
  doc_id : Str
  source : Str
  url : Str
  quote : Str
  offset : Offset
deriving DecidableEq, Repr

/-- Source `app/schemas/risk.py`, `Signal`.  `severity` is a Python `int`
(`int(cls.severity)`); `score` is a float modelled as `ℚ`. -/
structure Signal where
  category : Category
  severity : Int
  score : ℚ
  title : Str
  summary_ko : Str
  why : Str
  published_at : Str
  evidence : List EvidenceItem
  tags : List Str
  is_estimated : Bool
deriving DecidableEq, Repr

/-- Source `app/schemas/risk.py`, `RetrievalMeta`. -/
structure RetrievalMeta where
  search_used : Bool
  rag_used : Bool
  docs_count : Nat
  top_sources : List Str
deriving DecidableEq, Repr

/-- Source `app/schemas/risk.py`, `ExternalRiskDetectResponse`. -/
structure ExternalRiskDetectResponse where
  external_risk_level : RiskLevel
  total_score : ℚ
  signals : List Signal
  recommendations : List Str
  disclaimer : Str
  retrieval_meta : RetrievalMeta
deriving DecidableEq, Repr

/-- Source `app/analyze/summarizer.py`, `esg_SummaryResult`. -/
structure esg_SummaryResult where
  summary_ko : Str
  why : Str
  is_estimated : Bool
deriving DecidableEq, Repr

/-- Source `app/analyze/summarizer.py`, `esg_is_evidence_weak`: trimmed length
below 40 characters. -/
def esg_is_evidence_weak (text : Str) : Bool :=
  (pyStrip text).length < 40

/-- Source `app/analyze/summarizer.py`, `esg_prefix_if_needed`. -/
def esg_prefix_if_needed (strict is_estimated : Bool) (text : Str) : Str :=
  if strict && is_estimated && !(listStarts "추정".toList text) then
    "추정: ".toList ++ text
  else text

/-- The string form of a category (Python interpolates the `Literal`
value itself). -/
def categoryName : Category → Str
  | .SAFETY_ACCIDENT => "SAFETY_ACCIDENT".toList
  | .LEGAL_SANCTION => "LEGAL_SANCTION".toList
  | .LABOR_DISPUTE => "LABOR_DISPUTE".toList
  | .ENV_COMPLAINT => "ENV_COMPLAINT".toList
  | .FINANCE_LITIGATION => "FINANCE_LITIGATION".toList

/-- Source `app/analyze/summarizer.py`, `esg_summarize_and_why`.  The generative
branch is gated on an optional external capability (the `langchain_openai`
module plus `OPENAI_API_KEY`); the pipeline calls this with `model=None`
and the capability is modelled as absent, so the deterministic fallback
path below is the one embedded.  `severity` only feeds the generative
prompt and is kept as a parameter for fidelity. -/
def esg_summarize_and_why (text : Str) (category : Category) (severity : Int)
    (strict_grounding : Bool) : esg_SummaryResult :=
  let _ := severity
  let base := pyStrip text
  if base.isEmpty then
    ⟨"추정: 외부 문서 근거가 충분하지 않습니다.".toList, "근거 부족(추정)".toList, true⟩
  else
    let weak := esg_is_evidence_weak base
    let snippet := (base.take 180).map (fun c => if c == '\n' then ' ' else c)
    let is_estimated := if strict_grounding then weak else false
    let summary0 := categoryName category ++ " 관련 ESG 외부 위험 신호 가능성. ".toList ++ snippet
    ⟨esg_prefix_if_needed strict_grounding is_estimated summary0, snippet, is_estimated⟩

/-- Metadata attached to a retrieval hit or raw text item; the pipeline
reads exactly these keys (with `""` defaults) from the hit dictionaries. -/
structure DocMeta where
  doc_id : Str
  title : Str
  source : Str
  url : Str
  published_at : Str
deriving DecidableEq, Repr

/-- A `{"text": ..., "metadata": ...}` item as produced by
`esg_docs_to_text_items` and `esg_ChromaRag.esg_retrieve`. -/
structure TextItem where
  text : Str
  metadata : DocMeta
deriving DecidableEq, Repr

/-- Source `app/pipeline/detect.py`, `esg_State` (the LangGraph pipeline state). -/
structure esg_State where
  req : ExternalRiskDetectRequest
  docs : List DocItem
  search_used : Bool
  rag_used : Bool
  rag_hits : List TextItem
  signals : List Signal
  total_score : ℚ
  level : RiskLevel
deriving DecidableEq, Repr

/-- Embedding of `(d.text or "").strip() or (d.snippet or "").strip()`. -/
def docEffectiveText (d : DocItem) : Str :=
  if (pyStrip d.text).isEmpty then pyStrip d.snippet else pyStrip d.text

/-- Source `app/pipeline/detect.py`, `esg_docs_to_text_items`: chunk-ready text
items are the documents whose stripped text-or-snippet is non-empty. -/
def esg_docs_to_text_items (docs : List DocItem) : List TextItem :=
  docs.filterMap (fun d =>
    let text := docEffectiveText d
    if text.isEmpty then none
    else some ⟨text, ⟨d.doc_id, d.title, d.source, d.url, d.published_at⟩⟩)

/-- Source `app/pipeline/detect.py`, `esg_build_signal_from_text`.  `now` is the
current UTC time threaded to the recency weighter. -/
def esg_build_signal_from_text (now : Int) (req : ExternalRiskDetectRequest)
    (text : Str) (meta : DocMeta) : Signal :=
  let cls := esg_guess_category text req.categories
  let summary_res :=
    esg_summarize_and_why text cls.category (cls.severity : Int) req.options.strict_grounding
  let published_at := meta.published_at
  let weight := esg_recency_weight now published_at
  let score := (cls.severity : ℚ) * weight
  let evidence : List EvidenceItem :=
    if req.options.return_evidence_text then
      let r := esg_pick_quote_and_offset text cls.tags 200
      if r.1.isEmpty then []
      else [⟨meta.doc_id, meta.source, meta.url, r.1, ⟨r.2.1, r.2.2⟩⟩]
    else []
  { category := cls.category
    severity := (cls.severity : Int)
    score := score
    title := meta.title
    summary_ko := summary_res.summary_ko
    why := summary_res.why
    published_at := published_at
    evidence := evidence
    tags := cls.tags
    is_estimated := summary_res.is_estimated }

/-- Embedding of `int(x or dflt)`: Python `or` takes the default exactly when the
configured integer is `0`. -/
def pyIntOr (x dflt : Int) : Int := if x = 0 then dflt else x

/-- Source `app/pipeline/detect.py`, `esg_node_rag`.  The semantic store is an
external capability: `ready` models `rag.esg_ready()` and `retrieve`
models `rag.esg_retrieve` (the upsert is a side effect on the external
store, invisible in the returned state). -/
def esg_node_rag (ready : Bool) (retrieve : Str → Int → List TextItem)
    (state : esg_State) : esg_State :=
  let s1 := { state with rag_used := false, rag_hits := [] }
  if !state.req.rag.enabled then s1
  else
    let text_items := esg_docs_to_text_items state.docs
    if text_items.isEmpty then { s1 with rag_used := true }
    else if !ready then
      { s1 with rag_used := true,
                rag_hits := text_items.take (max 1 (pyIntOr state.req.rag.top_k 6)).toNat }
    else
      let query :=
        if (pyStrip state.req.search.query).isEmpty then state.req.company.name
        else pyStrip state.req.search.query
      { s1 with rag_used := true, rag_hits := retrieve query (pyIntOr state.req.rag.top_k 6) }

/-- Source `app/pipeline/detect.py`, `esg_node_analyze`: signals from the RAG
hits when present, otherwise from the raw documents. -/
def esg_node_analyze (now : Int) (state : esg_State) : esg_State :=
  let signals :=
    if !state.rag_hits.isEmpty then
      state.rag_hits.filterMap (fun h =>
        let text := pyStrip h.text
        if text.isEmpty then none
        else some (esg_build_signal_from_text now state.req text h.metadata))
    else
      state.docs.filterMap (fun d =>
        let text := docEffectiveText d
        if text.isEmpty then none
        else some (esg_build_signal_from_text now state.req text
          ⟨d.doc_id, d.title, d.source, d.url, d.published_at⟩))
  { state with signals := signals }

/-- Source `app/pipeline/detect.py`, `esg_node_score`: the total is the
sum of the signal scores, but the call into `esg_level_from_total` raises
on every input (see there), so the node never returns an updated state —
the embedding propagates the error. -/
def esg_node_score (state : esg_State) : Except Str esg_State :=
  let total := (state.signals.map Signal.score).sum
  match esg_level_from_total total with
  | .ok lvl => .ok { state with total_score := total, level := lvl }
  | .error e => .error e

/-- The literal `"news"`. -/
def newsStr : Str := "news".toList

/-- Source `app/search/provider.py`, `esg_search_documents`.  The GDELT call
(`esg_search_gdelt`) is a network operation passed in as an oracle:
`some docs` is a successful call, `none` an exception, which the
`try/except` turns into the empty list. -/
def esg_search_documents (req : ExternalRiskDetectRequest)
    (gdelt : Option (List DocItem)) : List DocItem :=
  if !req.search.enabled then []
  else if req.search.sources ≠ [] ∧ newsStr ∉ req.search.sources then []
  else gdelt.getD []

/-- Modelled from the spec: the placeholder result substituted on a
per-vendor timeout.  `esg_detect_external_risk_batch` is imported by
`app/api/risk.py` but its definition (and the batch schema) is not
present under the sources; spec §4.9 requires a LOW-level placeholder
carrying a 3-line explanation naming the timeout and suggesting narrower
parameters. -/
def esg_timeout_placeholder : ExternalRiskDetectResponse :=
  { external_risk_level := .LOW
    total_score := 0
    signals := []
    recommendations :=
      ["외부 리스크 분석이 제한 시간(timeout)을 초과하여 중단되었습니다.".toList,
       "검색 기간(time_window_days)과 대상 소스를 좁혀 다시 시도해 주세요.".toList,
       "현재 결과는 신호 없음(LOW) 대체 결과입니다.".toList]
    disclaimer := "본 결과는 외부 문서 기반의 보조 신호이며, 메인 판정을 변경하지 않습니다.".toList
    retrieval_meta := ⟨false, false, 0, []⟩ }

/-- The placeholder rationale names the timeout. -/
def esg_mentions_timeout (r : ExternalRiskDetectResponse) : Bool :=
  r.recommendations.any (fun line => strContainsB line "timeout".toList)

/-- Modelled from the spec: `esg_detect_external_risk_batch`
(spec §4.9 Batch Orchestrator), whose definition is missing from the
sources — only its caller `app/api/risk.py` is present.  Each vendor's
full pipeline run under its hard per-vendor timeout is abstracted as
`pipeline : request → Option response`, `none` marking a timed-out (or
failed) vendor whose in-flight work is abandoned; the bounded-concurrency
scheduling affects only wall-clock time, never the values, and the result
list is positional in the input order regardless of completion order. -/
def esg_detect_external_risk_batch
    (pipeline : ExternalRiskDetectRequest → Option ExternalRiskDetectResponse)
    (reqs : List ExternalRiskDetectRequest) : List ExternalRiskDetectResponse :=
  reqs.map (fun r => (pipeline r).getD esg_timeout_placeholder)

/-- Follows the spec's words (§4.2, steps 3–4), for comparison with
`esg_search_documents`: on primary-provider failure the collector is
supposed to fall through to the secondary feed-based provider and return
that provider's (already URL-deduplicated) document list `rssDocs`. -/
def esg_search_documents_specChain (req : ExternalRiskDetectRequest)
    (gdelt : Option (List DocItem)) (rssDocs : List DocItem) : List DocItem :=
  if !req.search.enabled then []
  else if req.search.sources ≠ [] ∧ newsStr ∉ req.search.sources then []
  else
    match gdelt with
    | some docs => docs
    | none => rssDocs

/-- The maximum of a list of hit counts (with `0` for the empty list). -/
def listMaxN (l : List Nat) : Nat := l.foldr max 0

/-- The four recency weights of `esg_recency_weight`. -/
def weightValues : List ℚ := [3/2, 1, 7/10, 2/5]

/-- Claim C1 property, at position `i` of the batch: positional result
with the timed-out vendor replaced by the LOW placeholder naming the
timeout (`dflt` and `dq` are arbitrary out-of-range defaults for `getD`). -/
def C1Prop (pipeline : ExternalRiskDetectRequest → Option ExternalRiskDetectResponse)
    (reqs : List ExternalRiskDetectRequest) (i : Nat)
    (dflt : ExternalRiskDetectResponse) (dq : ExternalRiskDetectRequest) : Prop :=
  (esg_detect_external_risk_batch pipeline reqs).length = reqs.length ∧
  (esg_detect_external_risk_batch pipeline reqs).getD i dflt =
    (pipeline (reqs.getD i dq)).getD esg_timeout_placeholder ∧
  (pipeline (reqs.getD i dq) = none →
    ((esg_detect_external_risk_batch pipeline reqs).getD i dflt).external_risk_level =
        RiskLevel.LOW ∧
    esg_mentions_timeout ((esg_detect_external_risk_batch pipeline reqs).getD i dflt) = true ∧
    ((esg_detect_external_risk_batch pipeline reqs).getD i dflt).total_score = 0 ∧
    ((esg_detect_external_risk_batch pipeline reqs).getD i dflt).signals = [] ∧
    ((esg_detect_external_risk_batch pipeline reqs).getD i dflt).recommendations.length = 3)

/-- Claim C3 property, against the crashing code: the inclusive
thresholds at 10 and 5 only select which nonexistent `RiskLevel`
attribute is accessed, every such access raises `AttributeError`, so
`esg_level_from_total` never returns a level and `esg_node_score` fails
on every state. -/
def C3Prop (state : esg_State) (q : ℚ) : Prop :=
  (∃ e, esg_node_score state = Except.error e) ∧
  (10 ≤ q → esg_level_from_total q = Except.error "AttributeError: HIGH".toList) ∧
  (5 ≤ q → q < 10 → esg_level_from_total q = Except.error "AttributeError: MEDIUM".toList) ∧
  (q < 5 → esg_level_from_total q = Except.error "AttributeError: LOW".toList) ∧
  (∀ lvl, esg_level_from_total q ≠ Except.ok lvl)

/-- Claim C4 property: severity is `min 5` of the maximal hit count, the
winner is the first category attaining that maximum (all strictly earlier
categories count strictly less — a tie keeps the earlier category), and
an all-zero scan yields the first allowed category with severity 0 and no
tags. -/
def C4Prop (text : Str) (allowed : List Category) : Prop :=
  (esg_guess_category text allowed).severity =
      min 5 (listMaxN (allowed.map (hitCount text))) ∧
  (∃ i, ∃ h : i < allowed.length,
    (esg_guess_category text allowed).category = allowed.get ⟨i, h⟩ ∧
    hitCount text (allowed.get ⟨i, h⟩) = listMaxN (allowed.map (hitCount text)) ∧
    ∀ j (hj : j < i),
      hitCount text (allowed.get ⟨j, Nat.lt_trans hj h⟩) <
        listMaxN (allowed.map (hitCount text))) ∧
  (listMaxN (allowed.map (hitCount text)) = 0 →
    esg_guess_category text allowed = ⟨allowed.headD Category.SAFETY_ACCIDENT, 0, []⟩)

/-- Claim C8 property (amended form): disabled retrieval yields no hits
and `rag_used = false`; enabled retrieval against a not-ready store still
sets `rag_used = true` and passes through the first
`max(1, top_k or 6)` chunk-ready text items unmodified. -/
def C8Prop (ready : Bool) (retrieve : Str → Int → List TextItem) (state : esg_State) : Prop :=
  (state.req.rag.enabled = false →
    (esg_node_rag ready retrieve state).rag_used = false ∧
    (esg_node_rag ready retrieve state).rag_hits = []) ∧
  (state.req.rag.enabled = true → ready = false →
    (esg_node_rag ready retrieve state).rag_used = true ∧
    (esg_node_rag ready retrieve state).rag_hits =
      (esg_docs_to_text_items state.docs).take
        (max 1 (pyIntOr state.req.rag.top_k 6)).toNat)

/-- Claim C9 per-signal invariant: severity is an integer in `[0, 5]`,
the score is severity times the recency weight of the signal's published
date, that weight is one of the four fixed values, and the score is
nonnegative. -/
def C9SignalOk (now : Int) (s : Signal) : Prop :=
  0 ≤ s.severity ∧ s.severity ≤ 5 ∧
  s.score = (s.severity : ℚ) * esg_recency_weight now s.published_at ∧
  esg_recency_weight now s.published_at ∈ weightValues ∧
  0 ≤ s.score

/-- Claim C10 property: an empty allowed list behaves exactly like the
full fixed table, and a text with no keyword hits classifies as the first
fixed category with severity 0 and no tags. -/
def C10Prop (text : Str) : Prop :=
  esg_guess_category text [] = esg_guess_category text allCategories ∧
  ((∀ cat, hitCount text cat = 0) →
    esg_guess_category text [] = ⟨Category.SAFETY_ACCIDENT, 0, []⟩)

/-- A minimal detect request used by the concrete instances below:
search enabled over the given sources, default-shaped remaining fields. -/
def sampleReq (name : Str) (sources : List Str) (top_k : Int) : ExternalRiskDetectRequest :=
  { company := ⟨name, none, none⟩
    time_window_days := 90
    categories := []
    search := ⟨true, [], 20, sources, "ko".toList⟩
    documents := []
    rag := ⟨true, top_k, 800⟩
    options := ⟨true, true⟩ }

/-- A concrete secondary-provider document (claim C2's hypothetical feed
result). -/
def c2_doc : DocItem :=
  ⟨"doc-rss-1".toList, "파업 관련 기사".toList, "example.com".toList,
   "2026-01-01".toList, "https://example.com/a".toList, [], "파업 장기화".toList⟩

/-- Claim C2 counterexample input: search enabled, "news" allowed. -/
def c2_req : ExternalRiskDetectRequest := sampleReq "성광벤드".toList [newsStr] 6

/-- Claim C7 counterexample input: search enabled with an (empty) source
set that does not contain "news". -/
def c7_req : ExternalRiskDetectRequest := sampleReq "성광벤드".toList [] 6

/-- A document the primary provider could return for `c7_req`. -/
def c7_doc : DocItem :=
  ⟨"doc-gdelt-1".toList, "중대재해 기사".toList, "news.example".toList,
   "2026-02-01".toList, "https://news.example/b".toList, [], "중대재해 발생".toList⟩

/-- Claim C7 witness input: search enabled with a non-empty source set
excluding "news". -/
def c7w_req : ExternalRiskDetectRequest := sampleReq "현대제철".toList ["gov".toList] 6

/-- The initial pipeline state for a request and its loaded documents. -/
def mkState (req : ExternalRiskDetectRequest) (docs : List DocItem) : esg_State :=
  ⟨req, docs, false, false, [], [], 0, .LOW⟩

/-- Claim C8 counterexample state: retrieval enabled with `top_k = 0` and
one chunk-ready document. -/
def c8_state : esg_State := mkState (sampleReq "동국제강".toList [newsStr] 0) [c7_doc]

/-- Claim C8 witness state: retrieval enabled with `top_k = 2` and one
chunk-ready document. -/
def c8w_state : esg_State := mkState (sampleReq "동국제강".toList [newsStr] 2) [c7_doc]

/-- Retrieval oracle for the concrete C8 instances (never consulted when
the store is not ready). -/
def c8_retrieve : Str → Int → List TextItem := fun _ _ => []

/-- A non-placeholder response for the C1 witness pipeline. -/
def c1w_resp : ExternalRiskDetectResponse :=
  { external_risk_level := .HIGH
    total_score := 12
    signals := []
    recommendations := ["정밀 점검을 권고합니다.".toList]
    disclaimer := [] 
    retrieval_meta := ⟨true, false, 3, []⟩ }

/-- Witness pipeline for claim C1: vendor `"V2"` times out, every other
vendor completes with `c1w_resp`. -/
def c1w_pipeline : ExternalRiskDetectRequest → Option ExternalRiskDetectResponse :=
  fun r => if r.company.name = "V2".toList then none else some c1w_resp

/-- Witness batch input for claim C1: three vendors, the second of which
times out. -/
def c1w_reqs : List ExternalRiskDetectRequest :=
  [sampleReq "V1".toList [newsStr] 6, sampleReq "V2".toList [newsStr] 6,
   sampleReq "V3".toList [newsStr] 6]

/-- State for the C3 and C9 witnesses: two chunk-ready documents. -/
def c3_state : esg_State := mkState (sampleReq "포스코홀딩스".toList [newsStr] 6) [c7_doc, c2_doc]

/-- Lemma that `getD` commutes with `map` below the length. -/
theorem getD_map_of_lt {α β : Type} (f : α → β) :
    ∀ (l : List α) (i : Nat), i < l.length → ∀ (d : β) (dq : α),
      (l.map f).getD i d = f (l.getD i dq) := by
  intro l
  induction l with
  | nil => intro i hi d dq; simp at hi
  | cons a l ih =>
    intro i hi d dq
    cases i with
    | zero => simp
    | succ j =>
      simp only [List.map_cons, List.getD_cons_succ]
      exact ih j (by simpa using hi) d dq

/-- Claim C1: the batch detect operation returns exactly one result per
input vendor, positionally in input order; a timed-out vendor is replaced
by a well-formed LOW placeholder whose rationale names the timeout, and
the surrounding results are the unmodified per-vendor pipeline outputs,
so the batch as a whole never fails because of one vendor. -/
theorem claim_C1_batch_order_and_timeout
    (pipeline : ExternalRiskDetectRequest → Option ExternalRiskDetectResponse)
    (reqs : List ExternalRiskDetectRequest) (i : Nat)
    (dflt : ExternalRiskDetectResponse) (dq : ExternalRiskDetectRequest)
    (h : i < reqs.length) : C1Prop pipeline reqs i dflt dq := by
  have hmap : (esg_detect_external_risk_batch pipeline reqs).getD i dflt =
      (pipeline (reqs.getD i dq)).getD esg_timeout_placeholder := by
    unfold esg_detect_external_risk_batch
    exact getD_map_of_lt _ reqs i h dflt dq
  refine ⟨by simp [esg_detect_external_risk_batch], hmap, ?_⟩
  intro hnone
  rw [hmap, hnone]
  refine ⟨rfl, by decide, rfl, rfl, rfl⟩

/-- Claim C1 witness: three vendors, the second timing out, at index 1. -/
theorem claim_C1_witness :
    C1Prop c1w_pipeline c1w_reqs 1 c1w_resp (sampleReq "V0".toList [newsStr] 6) :=
  claim_C1_batch_order_and_timeout c1w_pipeline c1w_reqs 1 c1w_resp
    (sampleReq "V0".toList [newsStr] 6) (by decide)

/-- Claim C2 (amended): when the primary provider call fails, the
collector does not raise — but it returns the empty document list rather
than consulting the secondary feed-based provider. -/
theorem claim_C2_primary_failure_empty (req : ExternalRiskDetectRequest) :
    esg_search_documents req none = [] := by
  unfold esg_search_documents
  split
  · rfl
  · split
    · rfl
    · rfl

/-- Claim C2 counterexample: with search enabled and "news" allowed, a
failing primary call makes `esg_search_documents` return `[]`, while the
spec's fallback chain would return the secondary provider's non-empty
list — the secondary provider is never invoked by the code. -/
theorem claim_C2_counterexample :
    esg_search_documents c2_req none = [] ∧
    esg_search_documents_specChain c2_req none [c2_doc] = [c2_doc] ∧
    ([c2_doc] : List DocItem) ≠ [] := by
  refine ⟨by decide, by decide, by simp⟩

/-- Claim C3, settled against the code as a bug: the thresholds at 10
and 5 are inclusive lower bounds, but they only choose which attribute
of the `typing.Literal` alias `RiskLevel` is accessed — `HIGH` at
`total ≥ 10`, `MEDIUM` at `5 ≤ total < 10`, `LOW` below — and every such
access raises `AttributeError`, so `esg_level_from_total` never returns
a level and the scoring node fails on every state instead of producing
the claimed mapping. -/
theorem claim_C3_level_crashes (state : esg_State) (q : ℚ) : C3Prop state q := by
  have hlv : ∀ r : ℚ, ∃ e, esg_level_from_total r = Except.error e := by
    intro r
    unfold esg_level_from_total
    split_ifs <;> exact ⟨_, rfl⟩
  unfold C3Prop
  refine ⟨?_, ?_, ?_, ?_, ?_⟩
  · obtain ⟨e, he⟩ := hlv ((state.signals.map Signal.score).sum)
    refine ⟨e, ?_⟩
    unfold esg_node_score
    simp only [he]
  · intro h
    unfold esg_level_from_total
    rw [if_pos h]
  · intro h5 h10
    unfold esg_level_from_total
    rw [if_neg (by linarith), if_pos h5]
  · intro h
    unfold esg_level_from_total
    rw [if_neg (by linarith), if_neg (by linarith)]
  · intro lvl
    obtain ⟨e, he⟩ := hlv q
    rw [he]
    simp

/-- Claim C3 witness at a concrete state and the threshold value 10. -/
theorem claim_C3_witness : C3Prop c3_state 10 :=
  claim_C3_level_crashes c3_state 10

/-- Claim C7 (amended): with search disabled, or with a non-empty source
set that excludes "news", the collector returns the empty list no matter
what the provider would have returned (the provider is not consulted). -/
theorem claim_C7_disabled_or_no_news (req : ExternalRiskDetectRequest)
    (gdelt : Option (List DocItem))
    (h : req.search.enabled = false ∨
      (req.search.sources ≠ [] ∧ newsStr ∉ req.search.sources)) :
    esg_search_documents req gdelt = [] := by
  unfold esg_search_documents
  rcases h with h | h
  · rw [if_pos (by rw [h]; rfl)]
  · by_cases he : req.search.enabled
    · rw [if_neg (by rw [he]; simp), if_pos h]
    · rw [if_pos (by simp [he])]

/-- Claim C7 witness: sources `["gov"]` with search enabled yield the
empty list even when the provider would have returned a document. -/
theorem claim_C7_witness : esg_search_documents c7w_req (some [c7_doc]) = [] :=
  claim_C7_disabled_or_no_news c7w_req (some [c7_doc]) (Or.inr (by decide))

/-- Claim C7 counterexample: an empty configured source set also
"excludes news", yet the collector does consult the provider and returns
its documents — the guard only fires for a non-empty source set. -/
theorem claim_C7_counterexample :
    esg_search_documents c7_req (some [c7_doc]) ≠ [] := by decide

/-- Claim C8 (amended): disabled retrieval produces no hits and marks
retrieval unused; enabled retrieval against a not-ready store marks
retrieval used and passes through the first `max(1, top_k or 6)`
chunk-ready raw text items unmodified. -/
theorem claim_C8_rag_disabled_or_not_ready (ready : Bool)
    (retrieve : Str → Int → List TextItem) (state : esg_State) :
    C8Prop ready retrieve state := by
  unfold C8Prop esg_node_rag
  constructor
  · intro h
    rw [h]
    simp
  · intro h hr
    rw [h, hr]
    simp only [Bool.not_true, Bool.false_eq_true, if_false, Bool.not_false, if_true]
    by_cases hti : (esg_docs_to_text_items state.docs).isEmpty
    · rw [if_pos hti]
      have : esg_docs_to_text_items state.docs = [] := List.isEmpty_iff.mp hti
      rw [this]
      simp
    · rw [if_neg hti]
      exact ⟨rfl, rfl⟩

/-- Claim C8 witness: a ready=false store with `top_k = 2` passes through
the chunk-ready items. -/
theorem claim_C8_witness : C8Prop false c8_retrieve c8w_state :=
  claim_C8_rag_disabled_or_not_ready false c8_retrieve c8w_state

/-- Claim C8 counterexample: with configured `top_k = 0` the fallback
passes through `max(1, 0 or 6) = 6` items, not "the first K = 0 items":
retrieval is marked used but the hit list is not `take top_k`. -/
theorem claim_C8_counterexample :
    (esg_node_rag false c8_retrieve c8_state).rag_used = true ∧
    (esg_node_rag false c8_retrieve c8_state).rag_hits ≠
      (esg_docs_to_text_items c8_state.docs).take c8_state.req.rag.top_k.toNat := by
  refine ⟨by decide, by decide⟩

/-- The running best hit count never decreases along the scan. -/
theorem guess_foldl_best_mono (t : Str) :
    ∀ (l : List Category) (acc : Category × Nat × List Str),
      acc.2.1 ≤ (l.foldl (esg_guess_step t) acc).2.1 := by
  intro l
  induction l with
  | nil => intro acc; simp
  | cons a l ih =>
    intro acc
    simp only [List.foldl_cons]
    refine le_trans ?_ (ih (esg_guess_step t acc a))
    unfold esg_guess_step
    split
    · next hlt => exact le_of_lt hlt
    · exact le_refl _

/-- Every scanned category's hit count is bounded by the final best. -/
theorem guess_foldl_ge_elem (t : Str) :
    ∀ (l : List Category) (acc : Category × Nat × List Str) (x : Category),
      x ∈ l → countHitsOn t x ≤ (l.foldl (esg_guess_step t) acc).2.1 := by
  intro l
  induction l with
  | nil => intro acc x hx; cases hx
  | cons a l ih =>
    intro acc x hx
    simp only [List.foldl_cons]
    rcases List.mem_cons.mp hx with h1 | hx
    · subst h1
      refine le_trans ?_ (guess_foldl_best_mono t l (esg_guess_step t acc x))
      unfold esg_guess_step
      split
      · exact le_refl _
      · next hnlt => omega
    · exact ih (esg_guess_step t acc a) x hx

/-- If no scanned hit count beats the accumulator, the scan is a no-op. -/
theorem guess_foldl_no_change (t : Str) :
    ∀ (l : List Category) (acc : Category × Nat × List Str),
      (∀ x ∈ l, countHitsOn t x ≤ acc.2.1) →
      l.foldl (esg_guess_step t) acc = acc := by
  intro l
  induction l with
  | nil => intro acc _; rfl
  | cons a l ih =>
    intro acc hall
    have hstep : esg_guess_step t acc a = acc := by
      unfold esg_guess_step
      rw [if_neg (by have := hall a (List.mem_cons_self a l); omega)]
    simp only [List.foldl_cons, hstep]
    exact ih acc (fun x hx => hall x (List.mem_cons_of_mem a hx))

/-- If some scanned hit count beats the accumulator, the scan ends on the
first category attaining the running maximum: all strictly earlier
categories count strictly less, and the result carries that category's
count and tags. -/
theorem guess_foldl_winner (t : Str) :
    ∀ (l : List Category) (acc : Category × Nat × List Str),
      (∃ x ∈ l, acc.2.1 < countHitsOn t x) →
      ∃ i, ∃ h : i < l.length,
        acc.2.1 < countHitsOn t (l.get ⟨i, h⟩) ∧
        (∀ j (hj : j < i),
          countHitsOn t (l.get ⟨j, Nat.lt_trans hj h⟩) < countHitsOn t (l.get ⟨i, h⟩)) ∧
        l.foldl (esg_guess_step t) acc =
          (l.get ⟨i, h⟩, countHitsOn t (l.get ⟨i, h⟩), tagsOn t (l.get ⟨i, h⟩)) := by
  intro l
  induction l with
  | nil => intro acc h; simp at h
  | cons a l ih =>
    intro acc ⟨x, hx, hlt⟩
    by_cases hc : acc.2.1 < countHitsOn t a
    · have hstep : esg_guess_step t acc a = (a, countHitsOn t a, tagsOn t a) := by
        unfold esg_guess_step
        rw [if_pos hc]
      by_cases h2 : ∃ y ∈ l, countHitsOn t a < countHitsOn t y
      · obtain ⟨i', h', hlt', hprev', heq'⟩ := ih (a, countHitsOn t a, tagsOn t a) h2
        refine ⟨i' + 1, Nat.succ_lt_succ h', ?_, ?_, ?_⟩
        · exact lt_trans hc hlt'
        · intro j hj
          cases j with
          | zero => exact hlt'
          | succ k => exact hprev' k (by omega)
        · simp only [List.foldl_cons, hstep]
          exact heq'
      · push_neg at h2
        refine ⟨0, Nat.succ_pos _, hc, ?_, ?_⟩
        · intro j hj; omega
        · simp only [List.foldl_cons, hstep]
          exact guess_foldl_no_change t l (a, countHitsOn t a, tagsOn t a) h2
    · have hstep : esg_guess_step t acc a = acc := by
        unfold esg_guess_step
        rw [if_neg hc]
      have hxl : x ∈ l := by
        rcases List.mem_cons.mp hx with rfl | hxl
        · exact absurd hlt hc
        · exact hxl
      obtain ⟨i', h', hlt', hprev', heq'⟩ := ih acc ⟨x, hxl, hlt⟩
      refine ⟨i' + 1, Nat.succ_lt_succ h', hlt', ?_, ?_⟩
      · intro j hj
        cases j with
        | zero =>
          have : countHitsOn t a ≤ acc.2.1 := by omega
          exact lt_of_le_of_lt this hlt'
        | succ k => exact hprev' k (by omega)
      · simp only [List.foldl_cons, hstep]
        exact heq'

/-- A member is bounded by the list maximum. -/
theorem mem_le_listMaxN : ∀ (l : List Nat) (x : Nat), x ∈ l → x ≤ listMaxN l := by
  intro l
  induction l with
  | nil => intro x hx; cases hx
  | cons a l ih =>
    intro x hx
    unfold listMaxN at *
    rcases List.mem_cons.mp hx with rfl | hx
    · simp only [List.foldr_cons]; omega
    · have := ih x hx
      simp only [List.foldr_cons]
      omega

/-- The list maximum is bounded by any upper bound of the members. -/
theorem listMaxN_le : ∀ (l : List Nat) (b : Nat), (∀ x ∈ l, x ≤ b) → listMaxN l ≤ b := by
  intro l
  induction l with
  | nil => intro b _; simp [listMaxN]
  | cons a l ih =>
    intro b hall
    unfold listMaxN at *
    simp only [List.foldr_cons]
    have h1 := hall a (List.mem_cons_self a l)
    have h2 := ih b (fun x hx => hall x (List.mem_cons_of_mem a hx))
    omega

/-- Claim C4: `esg_guess_category` scans the allowed categories in order
over the normalized text; the winner is the first category attaining the
maximal hit count (ties keep the earlier category), severity is
`min 5` of that count, and an all-zero scan returns the first allowed
category with severity 0 and no tags (never "no category"). -/
theorem claim_C4_classifier (text : Str) (allowed : List Category)
    (h : allowed ≠ []) : C4Prop text allowed := by
  have hne : allowed.isEmpty = false := by
    cases allowed
    · exact absurd rfl h
    · rfl
  have h0 : 0 < allowed.length := List.length_pos.mpr h
  have hhead : allowed.headD Category.SAFETY_ACCIDENT = allowed.get ⟨0, h0⟩ := by
    cases allowed
    · exact absurd rfl h
    · rfl
  unfold C4Prop esg_guess_category
  simp only [hne, Bool.false_eq_true, if_false]
  set t := esg_normalize_text text with ht
  set acc0 : Category × Nat × List Str := (allowed.headD Category.SAFETY_ACCIDENT, 0, [])
    with hacc0
  by_cases hz : ∀ x ∈ allowed, countHitsOn t x = 0
  · have hle : ∀ x ∈ allowed, countHitsOn t x ≤ acc0.2.1 := by
      intro x hx
      rw [hz x hx]
    have hfold := guess_foldl_no_change t allowed acc0 hle
    have hm0 : listMaxN (List.map (hitCount text) allowed) = 0 := by
      have hub : listMaxN (List.map (hitCount text) allowed) ≤ 0 := by
        apply listMaxN_le
        intro v hv
        rcases List.mem_map.mp hv with ⟨y, hy, rfl⟩
        exact le_of_eq (hz y hy)
      omega
    rw [hfold, hm0]
    refine ⟨rfl, ⟨0, h0, ?_, ?_, ?_⟩, fun _ => rfl⟩
    · exact hhead
    · exact hz _ (List.get_mem allowed 0 h0)
    · intro j hj; omega
  · push_neg at hz
    obtain ⟨x, hx, hxne⟩ := hz
    have hpos : acc0.2.1 < countHitsOn t x := by
      show 0 < countHitsOn t x
      omega
    obtain ⟨i, hi, hlt, hprev, heq⟩ := guess_foldl_winner t allowed acc0 ⟨x, hx, hpos⟩
    have hwle : ∀ y ∈ allowed, countHitsOn t y ≤ countHitsOn t (allowed.get ⟨i, hi⟩) := by
      intro y hy
      have hge := guess_foldl_ge_elem t allowed acc0 y hy
      rw [heq] at hge
      exact hge
    have hm : listMaxN (List.map (hitCount text) allowed) =
        countHitsOn t (allowed.get ⟨i, hi⟩) := by
      apply le_antisymm
      · apply listMaxN_le
        intro v hv
        rcases List.mem_map.mp hv with ⟨y, hy, rfl⟩
        exact hwle y hy
      · exact mem_le_listMaxN _ _
          (List.mem_map.mpr ⟨allowed.get ⟨i, hi⟩, List.get_mem allowed i hi, rfl⟩)
    rw [heq, hm]
    refine ⟨rfl, ⟨i, hi, rfl, rfl, fun j hj => hprev j hj⟩, fun hz0 => ?_⟩
    exfalso
    have := hwle x hx
    omega

/-- Claim C4 witness: two allowed categories where only the second has
hits; the winner is the second category with severity `min 5 3`. -/
theorem claim_C4_witness :
    C4Prop "과징금 및 벌금 위반 적발".toList
      [Category.ENV_COMPLAINT, Category.LEGAL_SANCTION] :=
  claim_C4_classifier "과징금 및 벌금 위반 적발".toList
    [Category.ENV_COMPLAINT, Category.LEGAL_SANCTION] (by decide)

/-- Claim C10: an empty allowed-category list is substituted by the full
fixed five-category table, so the `allowed[0]` default never goes out of
bounds, and a text with no keyword hits yields the first fixed category
(SAFETY_ACCIDENT) with severity 0 and empty tags. -/
theorem claim_C10_total_on_empty (text : Str) : C10Prop text := by
  constructor
  · rfl
  · intro hz
    have hle : ∀ x ∈ allCategories, countHitsOn (esg_normalize_text text) x ≤
        ((Category.SAFETY_ACCIDENT, 0, ([] : List Str)) : Category × Nat × List Str).2.1 := by
      intro x _
      exact le_of_eq (hz x)
    have hfold := guess_foldl_no_change (esg_normalize_text text) allCategories
      (Category.SAFETY_ACCIDENT, 0, []) hle
    calc esg_guess_category text []
        = ⟨(allCategories.foldl (esg_guess_step (esg_normalize_text text))
            (Category.SAFETY_ACCIDENT, 0, [])).1,
          min 5 (allCategories.foldl (esg_guess_step (esg_normalize_text text))
            (Category.SAFETY_ACCIDENT, 0, [])).2.1,
          (allCategories.foldl (esg_guess_step (esg_normalize_text text))
            (Category.SAFETY_ACCIDENT, 0, [])).2.2⟩ := rfl
      _ = ⟨Category.SAFETY_ACCIDENT, 0, []⟩ := by
        rw [hfold]
        exact rfl

/-- Claim C10 witness at a keyword-free text. -/
theorem claim_C10_witness : C10Prop "hello world".toList :=
  claim_C10_total_on_empty "hello world".toList

/-- The recency weight is always one of the four fixed values. -/
theorem esg_recency_weight_mem (now : Int) (s : Str) :
    esg_recency_weight now s ∈ weightValues := by
  unfold esg_recency_weight weightValues
  cases esg_parse_date_ymd s with
  | none => simp
  | some dt =>
    simp only
    split_ifs <;> simp

/-- All four recency weights are nonnegative. -/
theorem weightValues_nonneg : ∀ w ∈ weightValues, (0 : ℚ) ≤ w := by
  intro w hw
  unfold weightValues at hw
  simp at hw
  rcases hw with rfl | rfl | rfl | rfl <;> norm_num

/-- The classifier severity never exceeds 5. -/
theorem esg_guess_category_severity_le (text : Str) (allowed : List Category) :
    (esg_guess_category text allowed).severity ≤ 5 := by
  unfold esg_guess_category
  exact Nat.min_le_left 5 _

/-- Every signal built by `esg_build_signal_from_text` satisfies the C9
invariant. -/
theorem esg_build_signal_from_text_ok (now : Int) (req : ExternalRiskDetectRequest)
    (text : Str) (meta : DocMeta) :
    C9SignalOk now (esg_build_signal_from_text now req text meta) := by
  unfold C9SignalOk esg_build_signal_from_text
  simp only
  refine ⟨?_, ?_, ?_, esg_recency_weight_mem now meta.published_at, ?_⟩
  · exact_mod_cast Nat.zero_le _
  · exact_mod_cast esg_guess_category_severity_le text req.categories
  · push_cast
    ring
  · exact mul_nonneg (by exact_mod_cast Nat.zero_le _)
      (weightValues_nonneg _ (esg_recency_weight_mem now meta.published_at))

/-- Claim C9: every signal produced by the per-vendor analysis stage has
an integer severity in `[0, 5]`, a score equal to severity times a
recency weight drawn from `{1.5, 1.0, 0.7, 0.4}`, and hence a
nonnegative score. -/
theorem claim_C9_signal_invariants (now : Int) (state : esg_State) :
    ((esg_node_analyze now state).signals).Forall (C9SignalOk now) := by
  rw [List.forall_iff_forall_mem]
  intro s hs
  unfold esg_node_analyze at hs
  simp only at hs
  split at hs
  · rcases List.mem_filterMap.mp hs with ⟨x, hx, hfx⟩
    split at hfx
    · cases hfx
    · injection hfx with hfx
      subst hfx
      exact esg_build_signal_from_text_ok now state.req (pyStrip x.text) x.metadata
  · rcases List.mem_filterMap.mp hs with ⟨d, hd, hfd⟩
    split at hfd
    · cases hfd
    · injection hfd with hfd
      subst hfd
      exact esg_build_signal_from_text_ok now state.req (docEffectiveText d)
        ⟨d.doc_id, d.title, d.source, d.url, d.published_at⟩
/-- Claim C9 witness at a concrete two-document pipeline state. -/
theorem claim_C9_witness :
    ((esg_node_analyze 1704153600 c3_state).signals).Forall (C9SignalOk 1704153600) :=
  claim_C9_signal_invariants 1704153600 c3_state
